import Mathlib

/-!
Verification development for the node-agent reconciler of the logging-operator
repository (pkg/resources/nodeagent/nodeagent.go).

The Go data types (v1beta1.NodeAgent and its sub-specs, typeoverride.DaemonSet,
the core/v1 fragments the default literals populate) live outside the provided
source tree; their shapes are reconstructed from the way nodeagent.go constructs
and reads them.  Go pointers become `Option`, Go strings/ints keep their zero
values "" and 0, Go maps become association lists, and Go slices become lists.

The non-destructive merge performed by the external mergo library is modelled
from the spec (see `mergeNodeAgent` below); everything in the two Reconcile
loops is translated directly from nodeagent.go.
-/

set_option maxHeartbeats 1000000

/-- Fragment of k8s core/v1 HTTPGetAction as populated at nodeagent.go:70-75
(the IntOrString port is modelled by its integer value). -/
structure HTTPGetAction where
  path : String
  port : Int
deriving DecidableEq

/-- Fragment of core/v1 Handler (nodeagent.go:69). -/
structure Handler where
  httpGet : Option HTTPGetAction
deriving DecidableEq

/-- Fragment of core/v1 Probe (nodeagent.go:68-81). -/
structure Probe where
  handler : Handler
  initialDelaySeconds : Int
  timeoutSeconds : Int
  periodSeconds : Int
  successThreshold : Int
  failureThreshold : Int
deriving DecidableEq

/-- core/v1 ResourceRequirements; resource lists are modelled as association
lists from resource name to quantity string (nodeagent.go:58-67). -/
structure ResourceRequirements where
  limits : List (String × String)
  requests : List (String × String)
deriving DecidableEq

/-- Fragment of core/v1 Container as populated at nodeagent.go:54-82. -/
structure Container where
  name : String
  image : String
  imagePullPolicy : String
  resources : ResourceRequirements
  livenessProbe : Option Probe
deriving DecidableEq

/-- core/v1 Toleration (nodeagent.go:140-145). -/
structure Toleration where
  key : String
  operator : String
  value : String
  effect : String
deriving DecidableEq

/-- Fragment of the typeoverride PodSpec: the fields the default literals
populate (nodeagent.go:52-84, 136-147). -/
structure PodSpec where
  containers : List Container
  nodeSelector : List (String × String)
  tolerations : List Toleration
deriving DecidableEq

/-- typeoverride PodTemplateSpec. -/
structure PodTemplateSpec where
  spec : PodSpec
deriving DecidableEq

/-- typeoverride DaemonSetSpec. -/
structure DaemonSetSpec where
  template : PodTemplateSpec
deriving DecidableEq

/-- typeoverride DaemonSet. -/
structure DaemonSet where
  spec : DaemonSetSpec
deriving DecidableEq

/-- v1beta1 InputTail, fields populated at nodeagent.go:92-99. -/
structure InputTail where
  path : String
  refreshInterval : String
  skipLongLines : String
  db : Option String
  memBufLimit : String
  tag : String
deriving DecidableEq

/-- v1beta1 Security (nodeagent.go:100-104, read at nodeagent.go:169).  The
core/v1 SecurityContext and PodSecurityContext values are opaque to every
claim (the defaults populate them with empty literals), so they are modelled
as presence markers. -/
structure Security where
  roleBasedAccessControlCreate : Option Bool
  serviceAccount : String
  securityContext : Option Unit
  podSecurityContext : Option Unit
deriving DecidableEq

/-- v1beta1 BufferStorage (nodeagent.go:106-108). -/
structure BufferStorage where
  storagePath : String
deriving DecidableEq

/-- v1beta1 FilterAws (nodeagent.go:109-120). -/
structure FilterAws where
  imdsVersion : String
  az : Option Bool
  ec2InstanceID : Option Bool
  ec2InstanceType : Option Bool
  privateIP : Option Bool
  amiID : Option Bool
  accountID : Option Bool
  hostname : Option Bool
  vpcID : Option Bool
  matchRule : String
deriving DecidableEq

/-- v1beta1 ForwardOptions (nodeagent.go:121-123). -/
structure ForwardOptions where
  retryLimit : String
deriving DecidableEq

/-- v1beta1 NodeAgentFluentbit: the sub-spec tree the defaults populate. -/
structure NodeAgentFluentbit where
  daemonSetOverrides : Option DaemonSet
  flush : Int
  grace : Int
  logLevel : String
  coroStackSize : Int
  inputTail : InputTail
  security : Option Security
  mountPath : String
  bufferStorage : BufferStorage
  filterAws : Option FilterAws
  forwardOptions : Option ForwardOptions
deriving DecidableEq

/-- Object metadata carried by a node agent (labels, read at
nodeagent.go:162). -/
structure ObjectMeta where
  labels : List (String × String)
deriving DecidableEq

/-- v1beta1 NodeAgent: name, platform discriminator (`Type` in Go), metadata
and the fluent-bit sub-spec. -/
structure NodeAgent where
  name : String
  type : String
  metadata : ObjectMeta
  fluentbitSpec : Option NodeAgentFluentbit
deriving DecidableEq

/-- Zero value of InputTail. -/
def zeroInputTail : InputTail :=
  { path := "", refreshInterval := "", skipLongLines := "", db := none
    memBufLimit := "", tag := "" }

/-- Zero value of NodeAgentFluentbit. -/
def zeroNodeAgentFluentbit : NodeAgentFluentbit :=
  { daemonSetOverrides := none, flush := 0, grace := 0, logLevel := ""
    coroStackSize := 0, inputTail := zeroInputTail, security := none
    mountPath := "", bufferStorage := { storagePath := "" }, filterAws := none
    forwardOptions := none }

/-- Zero value of NodeAgent. -/
def zeroNodeAgent : NodeAgent :=
  { name := "", type := "", metadata := { labels := [] }, fluentbitSpec := none }

/-- Modelled from the spec: scalar case of the non-destructive merge of the
external mergo library (§4.1) — if the destination holds the zero value, copy
the source, otherwise leave the destination untouched. -/
def mergeStr (d s : String) : String := if d = "" then s else d

/-- Modelled from the spec: scalar (integer) case of the merge (§4.1). -/
def mergeInt (d s : Int) : Int := if d = 0 then s else d

/-- Modelled from the spec: pointer/optional case of the merge (§4.1) — fill
only when the destination is unset, and do not recurse into an already-set
pointer's nested fields. -/
def mergeOpt : Option α → Option α → Option α
  | none, s => s
  | some v, _ => some v

/-- Modelled from the spec: sequence/mapping case of the merge (§4.1) — replace
wholesale when the destination collection is empty, otherwise leave untouched. -/
def mergeList : List α → List α → List α
  | [], s => s
  | d, _ => d

/-- Modelled from the spec: merge of the embedded InputTail sub-structure. -/
def mergeInputTail (d s : InputTail) : InputTail :=
  { path := mergeStr d.path s.path
    refreshInterval := mergeStr d.refreshInterval s.refreshInterval
    skipLongLines := mergeStr d.skipLongLines s.skipLongLines
    db := mergeOpt d.db s.db
    memBufLimit := mergeStr d.memBufLimit s.memBufLimit
    tag := mergeStr d.tag s.tag }

/-- Modelled from the spec: merge of the embedded BufferStorage sub-structure. -/
def mergeBufferStorage (d s : BufferStorage) : BufferStorage :=
  { storagePath := mergeStr d.storagePath s.storagePath }

/-- Modelled from the spec: merge of the fluent-bit sub-spec, field by field. -/
def mergeNodeAgentFluentbit (d s : NodeAgentFluentbit) : NodeAgentFluentbit :=
  { daemonSetOverrides := mergeOpt d.daemonSetOverrides s.daemonSetOverrides
    flush := mergeInt d.flush s.flush
    grace := mergeInt d.grace s.grace
    logLevel := mergeStr d.logLevel s.logLevel
    coroStackSize := mergeInt d.coroStackSize s.coroStackSize
    inputTail := mergeInputTail d.inputTail s.inputTail
    security := mergeOpt d.security s.security
    mountPath := mergeStr d.mountPath s.mountPath
    bufferStorage := mergeBufferStorage d.bufferStorage s.bufferStorage
    filterAws := mergeOpt d.filterAws s.filterAws
    forwardOptions := mergeOpt d.forwardOptions s.forwardOptions }

/-- Modelled from the spec: merge of object metadata (labels are a mapping,
merged wholesale per §4.1). -/
def mergeObjectMeta (d s : ObjectMeta) : ObjectMeta :=
  { labels := mergeList d.labels s.labels }

/-- Modelled from the spec: `mergo.Merge(dst, src)` on NodeAgent values, §4.1 —
non-destructive: every already-set field of `dst` is kept, every unset field is
filled from `src`; an already-set pointer (here: the fluent-bit sub-spec and
every pointer below it) is left entirely untouched, without recursing into its
nested fields.  The mergo source is not part of this repository, so the spec's
merge contract is the model. -/
def mergeNodeAgent (d s : NodeAgent) : NodeAgent :=
  { name := mergeStr d.name s.name
    type := mergeStr d.type s.type
    metadata := mergeObjectMeta d.metadata s.metadata
    fluentbitSpec := mergeOpt d.fluentbitSpec s.fluentbitSpec }

/-- Base defaults profile, translated from NodeAgentFluentbitDefaults
(nodeagent.go:46-128). -/
def NodeAgentFluentbitDefaults : NodeAgent :=
  { zeroNodeAgent with
    fluentbitSpec := some
      { daemonSetOverrides := some
          { spec :=
            { template :=
              { spec :=
                { containers :=
                    [{ name := "fluent-bit"
                       image := "fluent/fluent-bit:1.6.8"
                       imagePullPolicy := "IfNotPresent"
                       resources :=
                         { limits := [("memory", "100M"), ("cpu", "200m")]
                           requests := [("memory", "50M"), ("cpu", "100m")] }
                       livenessProbe := some
                         { handler :=
                             { httpGet := some
                                 { path := "/api/v1/metrics/prometheus"
                                   port := 2020 } }
                           initialDelaySeconds := 10
                           timeoutSeconds := 0
                           periodSeconds := 10
                           successThreshold := 0
                           failureThreshold := 3 } }]
                  nodeSelector := []
                  tolerations := [] } } } }
        flush := 1
        grace := 5
        logLevel := "info"
        coroStackSize := 24576
        inputTail :=
          { path := "/var/log/containers/*.log"
            refreshInterval := "5"
            skipLongLines := "On"
            db := some "/tail-db/tail-containers-state.db"
            memBufLimit := "5MB"
            tag := "kubernetes.*" }
        security := some
          { roleBasedAccessControlCreate := some true
            serviceAccount := ""
            securityContext := some ()
            podSecurityContext := some () }
        mountPath := "/var/lib/docker/containers"
        bufferStorage := { storagePath := "/buffers" }
        filterAws := some
          { imdsVersion := "v2"
            az := some true
            ec2InstanceID := some true
            ec2InstanceType := some false
            privateIP := some false
            amiID := some false
            accountID := some false
            hostname := some false
            vpcID := some false
            matchRule := "*" }
        forwardOptions := some { retryLimit := "False" } } }

/-- Windows defaults profile (nodeagent.go:130-151). -/
def NodeAgentFluentbitWindowsDefaults : NodeAgent :=
  { zeroNodeAgent with
    fluentbitSpec := some
      { zeroNodeAgentFluentbit with
        mountPath := "C:\\ProgramData\\docker"
        daemonSetOverrides := some
          { spec :=
            { template :=
              { spec :=
                { containers := []
                  nodeSelector := [("kubernetes.io/os", "windows")]
                  tolerations :=
                    [{ key := "os", operator := "Equal", value := "windows"
                       effect := "NoSchedule" }] } } } }
        flush := 2 } }

/-- Linux defaults profile (nodeagent.go:152-155). -/
def NodeAgentFluentbitLinuxDefaults : NodeAgent :=
  { zeroNodeAgent with
    fluentbitSpec := some { zeroNodeAgentFluentbit with flush := 3 } }

/-- The two merges the top-level Reconcile performs on one node-agent entry
(nodeagent.go:207-234): Base defaults first, then — switching on the platform
discriminator of the merged-in-place entry — the Windows profile for "windows"
and the Linux profile for every other value. -/
def mergedNodeAgent (a : NodeAgent) : NodeAgent :=
  if (mergeNodeAgent a NodeAgentFluentbitDefaults).type = "windows" then
    mergeNodeAgent (mergeNodeAgent a NodeAgentFluentbitDefaults)
      NodeAgentFluentbitWindowsDefaults
  else
    mergeNodeAgent (mergeNodeAgent a NodeAgentFluentbitDefaults)
      NodeAgentFluentbitLinuxDefaults

/-- The daemon workload's node selector of a node agent, when present. -/
def daemonNodeSelector (a : NodeAgent) : Option (List (String × String)) :=
  match a.fluentbitSpec with
  | none => none
  | some fb =>
    match fb.daemonSetOverrides with
    | none => none
    | some ds => some ds.spec.template.spec.nodeSelector

/-- Go error values as built by the emperror.dev/errors helpers used in
nodeagent.go: a base error, `WrapIf` (message only) and `WrapWithDetails`
(message plus key/value details). -/
inductive GoError where
  | base : String → GoError
  | wrap : String → GoError → GoError
  | wrapWithDetails : String → List (String × String) → GoError → GoError
deriving DecidableEq

/-- Whether an error carries the key/value pair `(k, v)` among the details of
some wrapping layer. -/
def mentionsDetail (k v : String) : GoError → Bool
  | GoError.base _ => false
  | GoError.wrap _ e => mentionsDetail k v e
  | GoError.wrapWithDetails _ kvs e => kvs.contains (k, v) || mentionsDetail k v e

/-- controller-runtime reconcile.Result (the non-nil requeue signal). -/
structure ReconcileResult where
  requeue : Bool
  requeueAfter : Nat
deriving DecidableEq

/-- A desired object as far as the pipeline inspects it: only its
GroupVersionKind is read (for the apply-error detail at nodeagent.go:272). -/
structure K8sObject where
  gvk : String
deriving DecidableEq

/-- The reconciler.DesiredState policy tag attached to a desired object. -/
structure DesiredState where
  tag : String
deriving DecidableEq

/-- The triple `(o, state, err)` a resource factory returns
(nodeagent.go:262).  The factory bodies live outside the provided source
tree, so each factory is modelled by the result it returns in the pass. -/
structure FactoryResult where
  obj : Option K8sObject
  state : DesiredState
  err : Option GoError
deriving DecidableEq

/-- Events recorded while running the pipeline: invoking a factory, and
calling the apply primitive (`ReconcileResource`) on its object. -/
inductive CallEv where
  | callFactory : String → CallEv
  | callApply : String → CallEv
deriving DecidableEq

/-- One node-agent instance's pipeline environment: the result each of the ten
factories returns this pass (their bodies are outside the provided source) and
the behavior of the external apply primitive `ReconcileResource`. -/
structure PipelineEnv where
  serviceAccount : FactoryResult
  clusterRole : FactoryResult
  clusterRoleBinding : FactoryResult
  clusterPodSecurityPolicy : FactoryResult
  pspClusterRole : FactoryResult
  pspClusterRoleBinding : FactoryResult
  configSecret : FactoryResult
  daemonSet : FactoryResult
  serviceMetrics : FactoryResult
  monitorServiceMetrics : FactoryResult
  reconcileResource : K8sObject → DesiredState → Option ReconcileResult × Option GoError

/-- The ordered factory list of nodeAgentInstance.Reconcile
(nodeagent.go:250-261), tagged with the source method names. -/
def PipelineEnv.factories (env : PipelineEnv) : List (String × FactoryResult) :=
  [("serviceAccount", env.serviceAccount),
   ("clusterRole", env.clusterRole),
   ("clusterRoleBinding", env.clusterRoleBinding),
   ("clusterPodSecurityPolicy", env.clusterPodSecurityPolicy),
   ("pspClusterRole", env.pspClusterRole),
   ("pspClusterRoleBinding", env.pspClusterRoleBinding),
   ("configSecret", env.configSecret),
   ("daemonSet", env.daemonSet),
   ("serviceMetrics", env.serviceMetrics),
   ("monitorServiceMetrics", env.monitorServiceMetrics)]

/-- The source method names of the ten factories, in pipeline order. -/
def nodeAgentFactoryOrder : List String :=
  ["serviceAccount", "clusterRole", "clusterRoleBinding",
   "clusterPodSecurityPolicy", "pspClusterRole", "pspClusterRoleBinding",
   "configSecret", "daemonSet", "serviceMetrics", "monitorServiceMetrics"]

/-- The nil-object error message of nodeagent.go:267 (the `%#v` rendering of
the factory value is abstracted away). -/
def nilObjectMsg : String := "Reconcile error! Resource returns with nil object"

/-- The loop body of nodeAgentInstance.Reconcile (nodeagent.go:249-280) over an
explicit factory list, instrumented with the list of factory/apply calls it
performs: construction error → wrapped failure; nil object with nil error →
failure with `nilObjectMsg`; apply error → failure wrapped with the object's
GroupVersionKind detail; non-nil apply result → return it with nil error;
otherwise continue with the next factory. -/
def runFactories (ap : K8sObject → DesiredState → Option ReconcileResult × Option GoError) :
    List (String × FactoryResult) → List CallEv × Option ReconcileResult × Option GoError
  | [] => ([], none, none)
  | (nm, fr) :: rest =>
    match fr.err with
    | some e =>
      ([CallEv.callFactory nm], none,
        some (GoError.wrap "failed to create desired object" e))
    | none =>
      match fr.obj with
      | none => ([CallEv.callFactory nm], none, some (GoError.base nilObjectMsg))
      | some o =>
        match ap o fr.state with
        | (_, some e) =>
          ([CallEv.callFactory nm, CallEv.callApply nm], none,
            some (GoError.wrapWithDetails "failed to reconcile resource"
              [("resource", o.gvk)] e))
        | (some r, none) =>
          ([CallEv.callFactory nm, CallEv.callApply nm], some r, none)
        | (none, none) =>
          let out := runFactories ap rest
          (CallEv.callFactory nm :: CallEv.callApply nm :: out.1, out.2.1, out.2.2)

/-- nodeAgentInstance.Reconcile (nodeagent.go:249-280): run the ten factories
in their fixed order. -/
def instanceReconcile (env : PipelineEnv) :
    List CallEv × Option ReconcileResult × Option GoError :=
  runFactories env.reconcileResource env.factories

/-- The factory names of a call trace, in invocation order. -/
def factoryCalls (tr : List CallEv) : List String :=
  tr.filterMap fun e =>
    match e with
    | CallEv.callFactory nm => some nm
    | CallEv.callApply _ => none

/-- A factory step that reconciles cleanly this pass: no construction error, a
non-nil object, and an apply call reporting neither requeue nor error. -/
def cleanStep (ap : K8sObject → DesiredState → Option ReconcileResult × Option GoError)
    (p : String × FactoryResult) : Prop :=
  p.2.err = none ∧ ∃ o, p.2.obj = some o ∧ ap o p.2.state = (none, none)

/-- The call trace produced by a run of clean factory steps. -/
def cleanTrace : List (String × FactoryResult) → List CallEv
  | [] => []
  | p :: rest => CallEv.callFactory p.1 :: CallEv.callApply p.1 :: cleanTrace rest

/-- Modelled from the spec: the external mergo.Merge call on two NodeAgent
values.  mergo fails only when the two arguments do not share a compatible
shape, which cannot happen between typed NodeAgent values, so the model always
succeeds with the spec's non-destructive merge (§4.1). -/
def mergoMerge (d s : NodeAgent) : Except GoError NodeAgent :=
  Except.ok (mergeNodeAgent d s)

/-- The loop of Reconciler.Reconcile (nodeagent.go:204-246), parameterized by
the external merge call `m` and by each entry's pipeline environment.  The
first component counts how many node-agent entries the loop entered this pass.
A merge error is returned as-is; an instance error is wrapped with the
"failed to reconcile instances" message and the (merged) entry's name as the
NodeName detail; a non-nil instance result is returned with nil error;
otherwise the loop continues with the next entry. -/
def reconcileEntries (m : NodeAgent → NodeAgent → Except GoError NodeAgent) :
    List (NodeAgent × PipelineEnv) → Nat × Option ReconcileResult × Option GoError
  | [] => (0, none, none)
  | (a, env) :: rest =>
    match m a NodeAgentFluentbitDefaults with
    | Except.error e => (1, none, some e)
    | Except.ok a1 =>
      match (if a1.type = "windows" then m a1 NodeAgentFluentbitWindowsDefaults
             else m a1 NodeAgentFluentbitLinuxDefaults) with
      | Except.error e => (1, none, some e)
      | Except.ok a2 =>
        match instanceReconcile env with
        | (_, _, some e) =>
          (1, none, some (GoError.wrapWithDetails "failed to reconcile instances"
            [("NodeName", a2.name)] e))
        | (_, some r, none) => (1, some r, none)
        | (_, none, none) =>
          let out := reconcileEntries m rest
          (out.1 + 1, out.2.1, out.2.2)

/-- Reconciler.Reconcile (nodeagent.go:204-246) with the merge performed by the
modelled mergo. -/
def reconcilerReconcile (entries : List (NodeAgent × PipelineEnv)) :
    Nat × Option ReconcileResult × Option GoError :=
  reconcileEntries mergoMerge entries

/-- A node-agent entry whose instance pipeline reports neither requeue nor
error this pass. -/
def cleanInstance (env : PipelineEnv) : Prop :=
  (instanceReconcile env).2 = (none, none)

/-- The parent Logging resource as far as the claims read it: its name. -/
structure Logging where
  name : String
deriving DecidableEq

/-- nodeAgentInstance (nodeagent.go:196-201); the generic-reconciler handle and
the configs map are not read by any claim and are omitted. -/
structure NodeAgentInstance where
  nodeAgent : NodeAgent
  logging : Logging
deriving DecidableEq

/-- nodeAgentInstance.QualifiedName (nodeagent.go:283-285). -/
def QualifiedName (n : NodeAgentInstance) (nm : String) : String :=
  n.logging.name ++ "-" ++ n.nodeAgent.name ++ "-" ++ nm

/-- nodeAgentInstance.getServiceAccount (nodeagent.go:168-173).  The Go code
dereferences FluentbitSpec and Security unconditionally; a missing pointer
(which would panic in Go) is modelled as `none`. -/
def getServiceAccount (n : NodeAgentInstance) : Option String :=
  match n.nodeAgent.fluentbitSpec with
  | none => none
  | some fb =>
    match fb.security with
    | none => none
    | some sec =>
      if sec.serviceAccount ≠ "" then some sec.serviceAccount
      else some (QualifiedName n "fluentbit")

/-- Merging a source with empty name leaves any name unchanged. -/
theorem mergeStr_right_empty (d : String) : mergeStr d "" = d := by
  unfold mergeStr
  split <;> simp_all

/-- The Base defaults set no platform discriminator, so the first merge
preserves the entry's `Type` field. -/
theorem mergeNodeAgent_type_defaults (a : NodeAgent) :
    (mergeNodeAgent a NodeAgentFluentbitDefaults).type = a.type := by
  show mergeStr a.type "" = a.type
  exact mergeStr_right_empty a.type

/-- For an entry with no fluent-bit sub-spec, both merges leave the Base
profile's sub-spec in place: the second (platform) merge finds the pointer
already set and does not touch it. -/
theorem mergedNodeAgent_fbspec_of_none (S : NodeAgent)
    (h : S.fluentbitSpec = none) :
    (mergedNodeAgent S).fluentbitSpec = NodeAgentFluentbitDefaults.fluentbitSpec := by
  obtain ⟨v, hv⟩ : ∃ v, NodeAgentFluentbitDefaults.fluentbitSpec = some v := ⟨_, rfl⟩
  unfold mergedNodeAgent
  split
  · show mergeOpt (mergeOpt S.fluentbitSpec NodeAgentFluentbitDefaults.fluentbitSpec)
        NodeAgentFluentbitWindowsDefaults.fluentbitSpec =
      NodeAgentFluentbitDefaults.fluentbitSpec
    rw [h, hv]
    rfl
  · show mergeOpt (mergeOpt S.fluentbitSpec NodeAgentFluentbitDefaults.fluentbitSpec)
        NodeAgentFluentbitLinuxDefaults.fluentbitSpec =
      NodeAgentFluentbitDefaults.fluentbitSpec
    rw [h, hv]
    rfl

/-- A fully-set sample spec, used to witness the preservation claims. -/
def sampleSet : NodeAgent :=
  { name := "n", type := "t", metadata := { labels := [("a", "b")] }
    fluentbitSpec := some zeroNodeAgentFluentbit }

/-- The fluent-bit sub-spec of the Windows scenario: the user only sets the
daemon workload's node selector. -/
def windowsUserFB : NodeAgentFluentbit :=
  { zeroNodeAgentFluentbit with
    daemonSetOverrides := some
      { spec := { template := { spec :=
          { containers := [], nodeSelector := [("pool", "infra")]
            tolerations := [] } } } } }

/-- Windows scenario entry: a Windows node agent whose spec explicitly sets the
daemon's node selector to pool=infra. -/
def windowsUserSpec : NodeAgent :=
  { name := "win-agent", type := "windows", metadata := { labels := [] }
    fluentbitSpec := some windowsUserFB }

/-- C1 — Non-destructive merge: a field of the user spec that is set (non-zero
name, discriminator, labels; non-nil fluent-bit sub-spec) is unchanged by a
merge with any profile, the set sub-spec pointer survives both merges of the
top-level Reconcile unchanged, and in the Windows scenario the user's
node-selector pool=infra is still pool=infra after both merges. -/
theorem claim1_nondestructive_merge :
    (∀ (S P : NodeAgent),
      (S.name ≠ "" → (mergeNodeAgent S P).name = S.name) ∧
      (S.type ≠ "" → (mergeNodeAgent S P).type = S.type) ∧
      (S.metadata.labels ≠ [] →
        (mergeNodeAgent S P).metadata.labels = S.metadata.labels) ∧
      (∀ fb, S.fluentbitSpec = some fb →
        (mergeNodeAgent S P).fluentbitSpec = some fb)) ∧
    (∀ (S : NodeAgent) (fb : NodeAgentFluentbit), S.fluentbitSpec = some fb →
      (mergedNodeAgent S).fluentbitSpec = some fb) ∧
    daemonNodeSelector (mergedNodeAgent windowsUserSpec) = some [("pool", "infra")] := by
  refine ⟨fun S P => ⟨?_, ?_, ?_, ?_⟩, fun S fb hfb => ?_, by decide⟩
  · intro h
    show mergeStr S.name P.name = S.name
    unfold mergeStr
    rw [if_neg h]
  · intro h
    show mergeStr S.type P.type = S.type
    unfold mergeStr
    rw [if_neg h]
  · intro h
    show mergeList S.metadata.labels P.metadata.labels = S.metadata.labels
    cases hl : S.metadata.labels with
    | nil => exact absurd hl h
    | cons x xs => rfl
  · intro fb hfb
    show mergeOpt S.fluentbitSpec P.fluentbitSpec = some fb
    rw [hfb]
    rfl
  · unfold mergedNodeAgent
    split
    · show mergeOpt (mergeOpt S.fluentbitSpec NodeAgentFluentbitDefaults.fluentbitSpec)
          NodeAgentFluentbitWindowsDefaults.fluentbitSpec = some fb
      rw [hfb]
      rfl
    · show mergeOpt (mergeOpt S.fluentbitSpec NodeAgentFluentbitDefaults.fluentbitSpec)
          NodeAgentFluentbitLinuxDefaults.fluentbitSpec = some fb
      rw [hfb]
      rfl

/-- Closed witness for C1 at concrete inputs. -/
theorem claim1_witness :
    (mergeNodeAgent sampleSet NodeAgentFluentbitWindowsDefaults).name = sampleSet.name ∧
    (mergeNodeAgent sampleSet NodeAgentFluentbitWindowsDefaults).type = sampleSet.type ∧
    (mergeNodeAgent sampleSet NodeAgentFluentbitWindowsDefaults).metadata.labels =
      sampleSet.metadata.labels ∧
    (mergeNodeAgent sampleSet NodeAgentFluentbitWindowsDefaults).fluentbitSpec =
      some zeroNodeAgentFluentbit ∧
    (mergedNodeAgent windowsUserSpec).fluentbitSpec = some windowsUserFB := by
  refine ⟨?_, ?_, ?_, ?_, ?_⟩
  · exact (claim1_nondestructive_merge.1 sampleSet NodeAgentFluentbitWindowsDefaults).1
      (by decide)
  · exact (claim1_nondestructive_merge.1 sampleSet NodeAgentFluentbitWindowsDefaults).2.1
      (by decide)
  · exact (claim1_nondestructive_merge.1 sampleSet NodeAgentFluentbitWindowsDefaults).2.2.1
      (by decide)
  · exact (claim1_nondestructive_merge.1 sampleSet NodeAgentFluentbitWindowsDefaults).2.2.2
      zeroNodeAgentFluentbit rfl
  · exact claim1_nondestructive_merge.2.1 windowsUserSpec windowsUserFB rfl

/-- C2 — Base-wins precedence: for an entry whose fluent-bit sub-spec is unset,
after both merges of the top-level Reconcile the fields Base populates carry
Base's values (Flush 1, the Base mount path) whichever platform profile the
discriminator selects, even though the Linux profile sets Flush to 3 and the
Windows profile sets Flush to 2. -/
theorem claim2_base_wins :
    (∀ S : NodeAgent, S.fluentbitSpec = none →
      ((mergedNodeAgent S).fluentbitSpec.map (fun fb => fb.flush) = some 1 ∧
       (mergedNodeAgent S).fluentbitSpec.map (fun fb => fb.mountPath) =
         some "/var/lib/docker/containers")) ∧
    (mergedNodeAgent zeroNodeAgent).fluentbitSpec.map (fun fb => fb.flush) = some 1 ∧
    (mergedNodeAgent { zeroNodeAgent with type := "windows" }).fluentbitSpec.map
      (fun fb => fb.flush) = some 1 ∧
    NodeAgentFluentbitLinuxDefaults.fluentbitSpec.map (fun fb => fb.flush) = some 3 ∧
    NodeAgentFluentbitWindowsDefaults.fluentbitSpec.map (fun fb => fb.flush) = some 2 := by
  refine ⟨fun S h => ?_, by decide, by decide, by decide, by decide⟩
  rw [mergedNodeAgent_fbspec_of_none S h]
  exact ⟨rfl, rfl⟩

/-- Closed witness for C2 at the empty spec. -/
theorem claim2_witness :
    (mergedNodeAgent zeroNodeAgent).fluentbitSpec.map (fun fb => fb.flush) = some 1 ∧
    (mergedNodeAgent zeroNodeAgent).fluentbitSpec.map (fun fb => fb.mountPath) =
      some "/var/lib/docker/containers" :=
  claim2_base_wins.1 zeroNodeAgent rfl

/-- C3 — Fill-on-empty: a field unset in the user spec and set in the profile
equals the profile's value after the merge, and the completely empty spec ends
up carrying the Base profile's values verbatim: Flush 1, log level info, buffer
path /buffers and the fluent-bit 1.6.8 container image. -/
theorem claim3_fill_on_empty :
    (∀ (S P : NodeAgent),
      (S.name = "" → (mergeNodeAgent S P).name = P.name) ∧
      (S.type = "" → (mergeNodeAgent S P).type = P.type) ∧
      (S.metadata.labels = [] →
        (mergeNodeAgent S P).metadata.labels = P.metadata.labels) ∧
      (S.fluentbitSpec = none →
        (mergeNodeAgent S P).fluentbitSpec = P.fluentbitSpec)) ∧
    ((mergedNodeAgent zeroNodeAgent).fluentbitSpec.map (fun fb => fb.flush) = some 1 ∧
     (mergedNodeAgent zeroNodeAgent).fluentbitSpec.map (fun fb => fb.logLevel) =
       some "info" ∧
     (mergedNodeAgent zeroNodeAgent).fluentbitSpec.map
       (fun fb => fb.bufferStorage.storagePath) = some "/buffers" ∧
     ((mergedNodeAgent zeroNodeAgent).fluentbitSpec.bind
        (fun fb => fb.daemonSetOverrides)).map
       (fun d => d.spec.template.spec.containers.map (fun c => c.image)) =
       some ["fluent/fluent-bit:1.6.8"]) := by
  refine ⟨fun S P => ⟨?_, ?_, ?_, ?_⟩, by decide, by decide, by decide, by decide⟩
  · intro h
    show mergeStr S.name P.name = P.name
    unfold mergeStr
    rw [if_pos h]
  · intro h
    show mergeStr S.type P.type = P.type
    unfold mergeStr
    rw [if_pos h]
  · intro h
    show mergeList S.metadata.labels P.metadata.labels = P.metadata.labels
    rw [h]
    rfl
  · intro h
    show mergeOpt S.fluentbitSpec P.fluentbitSpec = P.fluentbitSpec
    rw [h]
    rfl

/-- Closed witness for C3 at the empty spec merged with the Linux profile. -/
theorem claim3_witness :
    (mergeNodeAgent zeroNodeAgent NodeAgentFluentbitLinuxDefaults).name =
      NodeAgentFluentbitLinuxDefaults.name ∧
    (mergeNodeAgent zeroNodeAgent NodeAgentFluentbitLinuxDefaults).type =
      NodeAgentFluentbitLinuxDefaults.type ∧
    (mergeNodeAgent zeroNodeAgent NodeAgentFluentbitLinuxDefaults).metadata.labels =
      NodeAgentFluentbitLinuxDefaults.metadata.labels ∧
    (mergeNodeAgent zeroNodeAgent NodeAgentFluentbitLinuxDefaults).fluentbitSpec =
      NodeAgentFluentbitLinuxDefaults.fluentbitSpec := by
  refine ⟨?_, ?_, ?_, ?_⟩
  · exact (claim3_fill_on_empty.1 zeroNodeAgent NodeAgentFluentbitLinuxDefaults).1 rfl
  · exact (claim3_fill_on_empty.1 zeroNodeAgent NodeAgentFluentbitLinuxDefaults).2.1 rfl
  · exact (claim3_fill_on_empty.1 zeroNodeAgent NodeAgentFluentbitLinuxDefaults).2.2.1 rfl
  · exact (claim3_fill_on_empty.1 zeroNodeAgent NodeAgentFluentbitLinuxDefaults).2.2.2 rfl

/-- C6 — Platform profile selection: discriminator "windows" makes the second
merge of the top-level Reconcile use the Windows profile, and any other value,
the empty string included, makes it use the Linux profile. -/
theorem claim6_platform_selection : ∀ a : NodeAgent,
    (a.type = "windows" → mergedNodeAgent a =
      mergeNodeAgent (mergeNodeAgent a NodeAgentFluentbitDefaults)
        NodeAgentFluentbitWindowsDefaults) ∧
    (a.type ≠ "windows" → mergedNodeAgent a =
      mergeNodeAgent (mergeNodeAgent a NodeAgentFluentbitDefaults)
        NodeAgentFluentbitLinuxDefaults) ∧
    (a.type = "" → mergedNodeAgent a =
      mergeNodeAgent (mergeNodeAgent a NodeAgentFluentbitDefaults)
        NodeAgentFluentbitLinuxDefaults) := by
  intro a
  have ht : (mergeNodeAgent a NodeAgentFluentbitDefaults).type = a.type :=
    mergeNodeAgent_type_defaults a
  refine ⟨?_, ?_, ?_⟩
  · intro h
    unfold mergedNodeAgent
    split
    · rfl
    · next hc => exact absurd (ht.trans h) hc
  · intro h
    unfold mergedNodeAgent
    split
    · next hc => exact absurd (ht.symm.trans hc) h
    · rfl
  · intro h
    have h' : a.type ≠ "windows" := by
      rw [h]
      decide
    unfold mergedNodeAgent
    split
    · next hc => exact absurd (ht.symm.trans hc) h'
    · rfl

/-- Closed witness for C6 at concrete discriminator values. -/
theorem claim6_witness :
    (mergedNodeAgent { zeroNodeAgent with type := "windows" } =
      mergeNodeAgent (mergeNodeAgent { zeroNodeAgent with type := "windows" }
        NodeAgentFluentbitDefaults) NodeAgentFluentbitWindowsDefaults) ∧
    (mergedNodeAgent { zeroNodeAgent with type := "linux" } =
      mergeNodeAgent (mergeNodeAgent { zeroNodeAgent with type := "linux" }
        NodeAgentFluentbitDefaults) NodeAgentFluentbitLinuxDefaults) ∧
    (mergedNodeAgent zeroNodeAgent =
      mergeNodeAgent (mergeNodeAgent zeroNodeAgent NodeAgentFluentbitDefaults)
        NodeAgentFluentbitLinuxDefaults) :=
  ⟨(claim6_platform_selection { zeroNodeAgent with type := "windows" }).1 rfl,
   (claim6_platform_selection { zeroNodeAgent with type := "linux" }).2.1 (by decide),
   (claim6_platform_selection zeroNodeAgent).2.2 rfl⟩

/-- Running the pipeline after a prefix of clean factory steps: the clean steps
contribute their factory/apply calls to the trace and the outcome is decided by
the remaining factories. -/
theorem runFactories_append_clean
    (ap : K8sObject → DesiredState → Option ReconcileResult × Option GoError)
    (pre rest : List (String × FactoryResult))
    (h : ∀ p ∈ pre, cleanStep ap p) :
    runFactories ap (pre ++ rest) =
      (cleanTrace pre ++ (runFactories ap rest).1,
       (runFactories ap rest).2.1, (runFactories ap rest).2.2) := by
  induction pre with
  | nil => simp [cleanTrace]
  | cons p tl ih =>
    obtain ⟨nm, fr⟩ := p
    obtain ⟨herr, o, hobj, happ⟩ := h (nm, fr) (List.mem_cons_self _ _)
    dsimp only at herr hobj happ
    have ih' := ih (fun q hq => h q (List.mem_cons_of_mem _ hq))
    simp [runFactories, herr, hobj, happ, cleanTrace, ih']

/-- C4 — Pipeline short-circuit: when every factory before the k-th reconciles
cleanly and the apply primitive reports a non-nil requeue result for the k-th
factory, the instance Reconcile stops there — the trace contains no call to any
later factory — and returns that requeue result with a nil error. -/
theorem claim4_short_circuit (env : PipelineEnv)
    (pre post : List (String × FactoryResult)) (nm : String) (fr : FactoryResult)
    (o : K8sObject) (r : ReconcileResult)
    (hfl : env.factories = pre ++ (nm, fr) :: post)
    (hpre : ∀ p ∈ pre, cleanStep env.reconcileResource p)
    (herr : fr.err = none) (hobj : fr.obj = some o)
    (happ : env.reconcileResource o fr.state = (some r, none)) :
    instanceReconcile env =
      (cleanTrace pre ++ [CallEv.callFactory nm, CallEv.callApply nm],
       some r, none) := by
  unfold instanceReconcile
  rw [hfl, runFactories_append_clean env.reconcileResource pre _ hpre]
  simp [runFactories, herr, hobj, happ]

/-- A factory result with a well-formed object and no error. -/
def okFactory : FactoryResult :=
  { obj := some { gvk := "ok" }, state := { tag := "present" }, err := none }

/-- A pipeline whose apply primitive always reports a requeue. -/
def requeueEnv : PipelineEnv :=
  { serviceAccount := okFactory, clusterRole := okFactory
    clusterRoleBinding := okFactory, clusterPodSecurityPolicy := okFactory
    pspClusterRole := okFactory, pspClusterRoleBinding := okFactory
    configSecret := okFactory, daemonSet := okFactory
    serviceMetrics := okFactory, monitorServiceMetrics := okFactory
    reconcileResource := fun _ _ =>
      (some { requeue := true, requeueAfter := 0 }, none) }

/-- Closed witness for C4: the very first factory requeues, the other nine are
never invoked. -/
theorem claim4_witness :
    instanceReconcile requeueEnv =
      ([CallEv.callFactory "serviceAccount", CallEv.callApply "serviceAccount"],
       some { requeue := true, requeueAfter := 0 }, none) := by
  have h := claim4_short_circuit requeueEnv [] (List.tail requeueEnv.factories)
    "serviceAccount" okFactory { gvk := "ok" }
    { requeue := true, requeueAfter := 0 } rfl (by simp) rfl rfl rfl
  simpa [cleanTrace] using h

/-- Every pipeline run invokes a prefix of the factory list, in order. -/
theorem factoryCalls_runFactories_prefix
    (ap : K8sObject → DesiredState → Option ReconcileResult × Option GoError)
    (l : List (String × FactoryResult)) :
    factoryCalls (runFactories ap l).1 <+: l.map Prod.fst := by
  induction l with
  | nil => simp [runFactories, factoryCalls]
  | cons p tl ih =>
    obtain ⟨nm, fr⟩ := p
    simp only [runFactories]
    cases herr : fr.err with
    | some e => exact ⟨tl.map Prod.fst, rfl⟩
    | none =>
      cases hobj : fr.obj with
      | none => exact ⟨tl.map Prod.fst, rfl⟩
      | some o =>
        dsimp only
        rcases happ : ap o fr.state with ⟨res, er⟩
        cases res with
        | some r =>
          cases er with
          | some e => exact ⟨tl.map Prod.fst, rfl⟩
          | none => exact ⟨tl.map Prod.fst, rfl⟩
        | none =>
          cases er with
          | some e => exact ⟨tl.map Prod.fst, rfl⟩
          | none =>
            obtain ⟨t, ht⟩ := ih
            refine ⟨t, ?_⟩
            show (nm :: factoryCalls (runFactories ap tl).1) ++ t =
              nm :: tl.map Prod.fst
            rw [List.cons_append, ht]

/-- C7 — Fixed factory order: every instance reconciliation pass invokes a
prefix of the ten factories service-account, cluster-role, cluster-role-binding,
pod-security-policy, its role and role-binding, configuration-secret,
daemon-workload, metrics-service and metrics-service-monitor, in exactly that
order, each at most once. -/
theorem claim7_factory_order (env : PipelineEnv) :
    factoryCalls (instanceReconcile env).1 <+: nodeAgentFactoryOrder ∧
    (factoryCalls (instanceReconcile env).1).Nodup ∧
    nodeAgentFactoryOrder =
      ["serviceAccount", "clusterRole", "clusterRoleBinding",
       "clusterPodSecurityPolicy", "pspClusterRole", "pspClusterRoleBinding",
       "configSecret", "daemonSet", "serviceMetrics", "monitorServiceMetrics"] := by
  have hmap : env.factories.map Prod.fst = nodeAgentFactoryOrder := rfl
  have hpre := factoryCalls_runFactories_prefix env.reconcileResource env.factories
  rw [hmap] at hpre
  refine ⟨hpre, ?_, rfl⟩
  have hnd : nodeAgentFactoryOrder.Nodup := by decide
  exact List.Nodup.sublist hpre.sublist hnd

/-- C8 — Nil desired object: when a factory returns a nil object with a nil
error after a clean prefix, the instance Reconcile fails at once with the
nil-object error; the apply primitive is not called for that factory and no
later factory is invoked. -/
theorem claim8_nil_object (env : PipelineEnv)
    (pre post : List (String × FactoryResult)) (nm : String) (fr : FactoryResult)
    (hfl : env.factories = pre ++ (nm, fr) :: post)
    (hpre : ∀ p ∈ pre, cleanStep env.reconcileResource p)
    (herr : fr.err = none) (hobj : fr.obj = none) :
    instanceReconcile env =
      (cleanTrace pre ++ [CallEv.callFactory nm], none,
       some (GoError.base nilObjectMsg)) := by
  unfold instanceReconcile
  rw [hfl, runFactories_append_clean env.reconcileResource pre _ hpre]
  simp [runFactories, herr, hobj]

/-- A factory result with a nil object and a nil error. -/
def nilFactory : FactoryResult :=
  { obj := none, state := { tag := "present" }, err := none }

/-- A pipeline whose first factory returns a nil object and whose apply
primitive always continues. -/
def nilObjectEnv : PipelineEnv :=
  { serviceAccount := nilFactory, clusterRole := okFactory
    clusterRoleBinding := okFactory, clusterPodSecurityPolicy := okFactory
    pspClusterRole := okFactory, pspClusterRoleBinding := okFactory
    configSecret := okFactory, daemonSet := okFactory
    serviceMetrics := okFactory, monitorServiceMetrics := okFactory
    reconcileResource := fun _ _ => (none, none) }

/-- Closed witness for C8: the first factory yields a nil object, the pass
fails immediately without an apply call. -/
theorem claim8_witness :
    instanceReconcile nilObjectEnv =
      ([CallEv.callFactory "serviceAccount"], none,
       some (GoError.base nilObjectMsg)) := by
  have h := claim8_nil_object nilObjectEnv [] (List.tail nilObjectEnv.factories)
    "serviceAccount" nilFactory rfl (by simp) rfl rfl
  simpa [cleanTrace] using h

/-- No defaults profile carries a name, so merging one into an entry preserves
the entry's name. -/
theorem mergeName_keep (a P : NodeAgent) (h : P.name = "") :
    (mergeNodeAgent a P).name = a.name := by
  show mergeStr a.name P.name = a.name
  rw [h]
  exact mergeStr_right_empty a.name

/-- The top-level loop over a prefix of entries whose instances reconcile
cleanly: the prefix only adds to the processed-entry count, the outcome is
decided by the remaining entries. -/
theorem reconcileEntries_append_clean
    (pre rest : List (NodeAgent × PipelineEnv))
    (h : ∀ q ∈ pre, cleanInstance q.2) :
    reconcileEntries mergoMerge (pre ++ rest) =
      ((reconcileEntries mergoMerge rest).1 + pre.length,
       (reconcileEntries mergoMerge rest).2.1,
       (reconcileEntries mergoMerge rest).2.2) := by
  induction pre with
  | nil => simp
  | cons q tl ih =>
    obtain ⟨a, env⟩ := q
    have hc := h (a, env) (List.mem_cons_self _ _)
    have ih' := ih (fun w hw => h w (List.mem_cons_of_mem _ hw))
    unfold cleanInstance at hc
    dsimp only at hc
    rcases hres : instanceReconcile env with ⟨tr, res, er⟩
    rw [hres] at hc
    have h1 : res = none := congrArg Prod.fst hc
    have h2 : er = none := congrArg (fun p => p.2) hc
    subst h1 h2
    by_cases htype : (mergeNodeAgent a NodeAgentFluentbitDefaults).type = "windows"
    · simp only [List.cons_append, reconcileEntries, mergoMerge, if_pos htype]
      rw [hres]
      simp only [List.append_eq]
      rw [ih']
      simp [Nat.add_assoc]
    · simp only [List.cons_append, reconcileEntries, mergoMerge, if_neg htype]
      rw [hres]
      simp only [List.append_eq]
      rw [ih']
      simp [Nat.add_assoc]

/-- An entry whose instance pipeline fails stops the top-level loop at once:
the pass returns a nil result and the instance error wrapped with the entry's
name as the NodeName detail. -/
theorem reconcileEntries_head_fail (a : NodeAgent) (env : PipelineEnv)
    (rest : List (NodeAgent × PipelineEnv)) (e : GoError)
    (hfail : (instanceReconcile env).2 = (none, some e)) :
    reconcileEntries mergoMerge ((a, env) :: rest) =
      (1, none, some (GoError.wrapWithDetails "failed to reconcile instances"
        [("NodeName", a.name)] e)) := by
  rcases hres : instanceReconcile env with ⟨tr, res, er⟩
  rw [hres] at hfail
  have h1 : res = none := congrArg Prod.fst hfail
  have h2 : er = some e := congrArg (fun p => p.2) hfail
  subst h1 h2
  by_cases htype : (mergeNodeAgent a NodeAgentFluentbitDefaults).type = "windows"
  · simp only [reconcileEntries, mergoMerge, if_pos htype]
    rw [hres]
    rw [mergeName_keep (mergeNodeAgent a NodeAgentFluentbitDefaults)
      NodeAgentFluentbitWindowsDefaults rfl,
      mergeName_keep a NodeAgentFluentbitDefaults rfl]
  · simp only [reconcileEntries, mergoMerge, if_neg htype]
    rw [hres]
    rw [mergeName_keep (mergeNodeAgent a NodeAgentFluentbitDefaults)
      NodeAgentFluentbitLinuxDefaults rfl,
      mergeName_keep a NodeAgentFluentbitDefaults rfl]

/-- C5 — Node-agent isolation on failure: with the entries before the i-th all
reconciling cleanly, if the i-th entry's instance reconciliation fails, the
top-level Reconcile processes exactly the first i+1 entries — none after it —
and returns a nil result with the error wrapped with that entry's name as the
NodeName context. -/
theorem claim5_isolation
    (entries pre post : List (NodeAgent × PipelineEnv)) (a : NodeAgent)
    (env : PipelineEnv) (e : GoError)
    (hsplit : entries = pre ++ (a, env) :: post)
    (hpre : ∀ q ∈ pre, cleanInstance q.2)
    (hfail : (instanceReconcile env).2 = (none, some e)) :
    reconcilerReconcile entries =
      (pre.length + 1, none,
       some (GoError.wrapWithDetails "failed to reconcile instances"
         [("NodeName", a.name)] e)) := by
  unfold reconcilerReconcile
  rw [hsplit, reconcileEntries_append_clean pre _ hpre,
    reconcileEntries_head_fail a env post e hfail]
  simp [Nat.add_comm]

/-- A factory result whose construction fails. -/
def failFactory : FactoryResult :=
  { obj := some { gvk := "sa" }, state := { tag := "present" }
    err := some (GoError.base "boom") }

/-- A pipeline whose first factory fails to construct its object. -/
def failEnv : PipelineEnv :=
  { serviceAccount := failFactory, clusterRole := okFactory
    clusterRoleBinding := okFactory, clusterPodSecurityPolicy := okFactory
    pspClusterRole := okFactory, pspClusterRoleBinding := okFactory
    configSecret := okFactory, daemonSet := okFactory
    serviceMetrics := okFactory, monitorServiceMetrics := okFactory
    reconcileResource := fun _ _ => (none, none) }

/-- A pipeline in which every factory and every apply call succeeds. -/
def cleanEnv : PipelineEnv :=
  { serviceAccount := okFactory, clusterRole := okFactory
    clusterRoleBinding := okFactory, clusterPodSecurityPolicy := okFactory
    pspClusterRole := okFactory, pspClusterRoleBinding := okFactory
    configSecret := okFactory, daemonSet := okFactory
    serviceMetrics := okFactory, monitorServiceMetrics := okFactory
    reconcileResource := fun _ _ => (none, none) }

/-- First sample entry. -/
def agentOne : NodeAgent := { zeroNodeAgent with name := "agent-1" }

/-- Second sample entry. -/
def agentTwo : NodeAgent := { zeroNodeAgent with name := "agent-2" }

/-- Closed witness for C5: entry agent-1 fails, entry agent-2 is present in the
list but the pass stops after the first entry with the error naming agent-1. -/
theorem claim5_witness :
    reconcilerReconcile [(agentOne, failEnv), (agentTwo, cleanEnv)] =
      (1, none, some (GoError.wrapWithDetails "failed to reconcile instances"
        [("NodeName", "agent-1")]
        (GoError.wrap "failed to create desired object" (GoError.base "boom")))) := by
  have h := claim5_isolation [(agentOne, failEnv), (agentTwo, cleanEnv)] []
    [(agentTwo, cleanEnv)] agentOne failEnv
    (GoError.wrap "failed to create desired object" (GoError.base "boom"))
    rfl (by simp) rfl
  simpa using h

/-- C9 (amended) — Error propagation: a merge error from filling defaults
aborts the pass after its entry and is returned to the caller unmodified,
without the node-agent's name; an instance error (construction or apply)
aborts the pass and is returned wrapped with the responsible node-agent's name
as the NodeName detail.  No error is retried: in every case exactly one entry
was processed and the pass ends. -/
theorem claim9_error_propagation :
    (∀ (m : NodeAgent → NodeAgent → Except GoError NodeAgent) (a : NodeAgent)
       (env : PipelineEnv) (rest : List (NodeAgent × PipelineEnv)) (e : GoError),
      m a NodeAgentFluentbitDefaults = Except.error e →
      reconcileEntries m ((a, env) :: rest) = (1, none, some e)) ∧
    (∀ (m : NodeAgent → NodeAgent → Except GoError NodeAgent) (a : NodeAgent)
       (env : PipelineEnv) (rest : List (NodeAgent × PipelineEnv)) (e : GoError)
       (a1 : NodeAgent),
      m a NodeAgentFluentbitDefaults = Except.ok a1 →
      (if a1.type = "windows" then m a1 NodeAgentFluentbitWindowsDefaults
       else m a1 NodeAgentFluentbitLinuxDefaults) = Except.error e →
      reconcileEntries m ((a, env) :: rest) = (1, none, some e)) ∧
    (∀ (a : NodeAgent) (env : PipelineEnv)
       (rest : List (NodeAgent × PipelineEnv)) (e : GoError),
      (instanceReconcile env).2 = (none, some e) →
      reconcileEntries mergoMerge ((a, env) :: rest) =
        (1, none, some (GoError.wrapWithDetails "failed to reconcile instances"
          [("NodeName", a.name)] e))) := by
  refine ⟨?_, ?_, ?_⟩
  · intro m a env rest e hm
    simp [reconcileEntries, hm]
  · intro m a env rest e a1 hm1 hm2
    simp [reconcileEntries, hm1, hm2]
  · intro a env rest e hfail
    exact reconcileEntries_head_fail a env rest e hfail

/-- A merge call that fails, as mergo does on incompatible arguments. -/
def badMerge : NodeAgent → NodeAgent → Except GoError NodeAgent :=
  fun _ _ => Except.error (GoError.base "types do not match")

/-- Counterexample to C9 as stated: when the merge of the Base defaults fails
for entry agent-1, the top-level loop returns that error as-is — it does not
carry the node-agent's name in any detail. -/
theorem claim9_counterexample :
    reconcileEntries badMerge [(agentOne, cleanEnv)] =
      (1, none, some (GoError.base "types do not match")) ∧
    mentionsDetail "NodeName" "agent-1" (GoError.base "types do not match") = false :=
  ⟨rfl, rfl⟩

/-- Closed witness for the amended C9. -/
theorem claim9_witness :
    reconcileEntries badMerge [(agentTwo, cleanEnv)] =
      (1, none, some (GoError.base "types do not match")) ∧
    reconcileEntries mergoMerge [(agentTwo, failEnv)] =
      (1, none, some (GoError.wrapWithDetails "failed to reconcile instances"
        [("NodeName", "agent-2")]
        (GoError.wrap "failed to create desired object" (GoError.base "boom")))) := by
  constructor
  · exact claim9_error_propagation.1 badMerge agentTwo cleanEnv [] _ rfl
  · have h := claim9_error_propagation.2.2 agentTwo failEnv []
      (GoError.wrap "failed to create desired object" (GoError.base "boom")) rfl
    simpa using h

/-- C10 — Service-account name override: when the merged spec sets a non-empty
security service-account name, getServiceAccount returns exactly it; otherwise
it returns the qualified name parent-name, node-agent name and the fixed
fluentbit suffix joined by dashes. -/
theorem claim10_service_account (n : NodeAgentInstance)
    (fb : NodeAgentFluentbit) (sec : Security)
    (hfb : n.nodeAgent.fluentbitSpec = some fb) (hsec : fb.security = some sec) :
    (sec.serviceAccount ≠ "" → getServiceAccount n = some sec.serviceAccount) ∧
    (sec.serviceAccount = "" →
      getServiceAccount n = some (QualifiedName n "fluentbit")) ∧
    QualifiedName n "fluentbit" =
      n.logging.name ++ "-" ++ n.nodeAgent.name ++ "-" ++ "fluentbit" := by
  refine ⟨?_, ?_, rfl⟩
  · intro h
    simp [getServiceAccount, hfb, hsec, h]
  · intro h
    simp [getServiceAccount, hfb, hsec, h]

/-- A security block with a user-supplied service-account name. -/
def secSet : Security :=
  { roleBasedAccessControlCreate := none, serviceAccount := "custom-sa"
    securityContext := none, podSecurityContext := none }

/-- A security block with no service-account name. -/
def secEmpty : Security :=
  { roleBasedAccessControlCreate := none, serviceAccount := ""
    securityContext := none, podSecurityContext := none }

/-- Node agent carrying a user-supplied service-account name. -/
def agentWithSA : NodeAgent :=
  { zeroNodeAgent with
    name := "agent-1"
    fluentbitSpec := some { zeroNodeAgentFluentbit with security := some secSet } }

/-- Node agent whose security block leaves the service account empty. -/
def agentNoSA : NodeAgent :=
  { zeroNodeAgent with
    name := "agent-2"
    fluentbitSpec := some { zeroNodeAgentFluentbit with security := some secEmpty } }

/-- Instance whose merged spec names a service account. -/
def instWithSA : NodeAgentInstance :=
  { nodeAgent := agentWithSA, logging := { name := "logging" } }

/-- Instance whose merged spec leaves the service account empty. -/
def instNoSA : NodeAgentInstance :=
  { nodeAgent := agentNoSA, logging := { name := "logging" } }

/-- Closed witness for C10 in both directions. -/
theorem claim10_witness :
    getServiceAccount instWithSA = some "custom-sa" ∧
    getServiceAccount instNoSA = some "logging-agent-2-fluentbit" := by
  constructor
  · exact (claim10_service_account instWithSA
      { zeroNodeAgentFluentbit with security := some secSet } secSet (by rfl)
      (by rfl)).1 (by decide)
  · have h := (claim10_service_account instNoSA
      { zeroNodeAgentFluentbit with security := some secEmpty } secEmpty (by rfl)
      (by rfl)).2.1 rfl
    rw [h]
    decide
